import Mathlib

/-!
Verification of the stub-tracking core of the BLOOMBERG_RAG repository.

The Python sources under `src/` are shallowly embedded: pure functions become
Lean functions over `List Char` / `String`, the mutable registry becomes a
`List StubEntry` threaded through each operation, and the Outlook connector
becomes an explicit mailbox state.  Python `datetime` values are embedded as a
record of `Nat` fields; Python string operations (`strip`, `lower`, slicing)
are embedded over `List Char` with ASCII semantics.
-/

/-! ### Python character classes (ASCII fragment of `str.strip`, `str.lower`, `\s`, `[A-Z]`, `[a-z]`) -/

def isUpperAZ (c : Char) : Bool := 'A' ≤ c && c ≤ 'Z'

def isLowerAZ (c : Char) : Bool := 'a' ≤ c && c ≤ 'z'

def isAsciiLetter (c : Char) : Bool := isUpperAZ c || isLowerAZ c

/-- The ASCII whitespace set stripped by Python `str.strip()` and matched by `\s`. -/
def isPySpace (c : Char) : Bool :=
  c == ' ' || c == '\t' || c == '\n' || c == '\r' || c == Char.ofNat 11 || c == Char.ofNat 12

def isDigitC (c : Char) : Bool := '0' ≤ c && c ≤ '9'

/-- Drop trailing characters satisfying `p`. -/
def dropTrail (p : Char → Bool) (l : List Char) : List Char :=
  (l.reverse.dropWhile p).reverse

/-- Python `str.strip()` on a character list. -/
def pyStripL (l : List Char) : List Char :=
  dropTrail isPySpace (l.dropWhile isPySpace)

/-- Python `str.lower()` (ASCII: `Char.toLower` lowercases exactly A–Z). -/
def pyLowerL (l : List Char) : List Char := l.map Char.toLower

/-! ### Embedded `datetime` -/

/-- Python naive `datetime` as used by the registry (`models.py`). -/
structure Datetime where
  year : Nat
  month : Nat
  day : Nat
  hour : Nat
  minute : Nat
  second : Nat
  microsecond : Nat
deriving Repr, DecidableEq

/-- Zero-padded fixed-width decimal rendering (most significant digit first);
`padDigits w n` is the `w`-digit spelling of `n` when `n < 10 ^ w`. -/
def padDigits : Nat → Nat → List Char
  | 0, _ => []
  | w + 1, n => Char.ofNat (48 + n / 10 ^ w) :: padDigits w (n % 10 ^ w)

/-- `received_date.strftime("%Y%m%d")` (models.py / registry.py). -/
def strftimeYmd (d : Datetime) : List Char :=
  padDigits 4 d.year ++ padDigits 2 d.month ++ padDigits 2 d.day

/-! ### Fingerprint / normalization (`StubRegistry.normalize_subject`, `StubRegistry.create_fingerprint`, `EmailDocument.get_fingerprint`) -/

/-- The anchored regex `^\([A-Z]+\)\s*` of `normalize_subject` (registry.py:332):
if the subject starts with `(` CAPS⁺ `)` ws*, return the remainder, else `none`
(`re.sub` with `^` and no MULTILINE substitutes at most the one match at position 0). -/
def stripPfxMatch : List Char → Option (List Char)
  | [] => none
  | c :: rest =>
    if c = '(' then
      if (rest.takeWhile isUpperAZ).isEmpty then none
      else
        match rest.dropWhile isUpperAZ with
        | [] => none
        | c2 :: rest2 => if c2 = ')' then some (rest2.dropWhile isPySpace) else none
    else none

/-- `StubRegistry.normalize_subject` (registry.py:305-333): remove one leading
bracketed all-caps token, then `strip()`. -/
def normalizeSubjectL (l : List Char) : List Char :=
  match stripPfxMatch l with
  | some r => pyStripL r
  | none => pyStripL l

def normalize_subject (s : String) : String := String.mk (normalizeSubjectL s.data)

/-- `StubRegistry.create_fingerprint` (registry.py:335-370):
`normalize_subject(subject).lower().strip() + "_" + date.strftime("%Y%m%d")`. -/
def fingerprintL (subj : List Char) (d : Datetime) : List Char :=
  pyStripL (pyLowerL (normalizeSubjectL subj)) ++ '_' :: strftimeYmd d

def create_fingerprint (subject : String) (d : Datetime) : String :=
  String.mk (fingerprintL subject.data d)

/-- `EmailDocument.get_fingerprint` (models.py:211-219):
`subject.lower().strip() + "_" + date.strftime("%Y%m%d")` — note: NO prefix
normalization, unlike `create_fingerprint`. -/
def docFingerprintL (subj : List Char) (d : Datetime) : List Char :=
  pyStripL (pyLowerL subj) ++ '_' :: strftimeYmd d

/-! ### Data model (`src/models.py`) -/

/-- `StubEntry` (models.py:251-298). -/
structure StubEntry where
  outlook_entry_id : String
  story_id : Option String
  fingerprint : String
  subject : String
  received_time : Datetime
  status : String
  completed_at : Option Datetime
deriving Repr, DecidableEq

/-- `BloombergMetadata` (models.py:12-72). -/
structure BloombergMetadata where
  author : Option String := none
  article_date : Option Datetime := none
  topics : List String := []
  people : List String := []
  tickers : List String := []
  category : Option String := none
  story_id : Option String := none
deriving Repr, DecidableEq

/-- `EmailDocument` (models.py:75-219); the numpy `embedding` field is not read by any
operation verified here and is omitted. -/
structure EmailDocument where
  outlook_entry_id : String
  subject : String
  body : String
  raw_body : String
  sender : String
  received_date : Datetime
  bloomberg_metadata : BloombergMetadata
  status : String
  is_stub : Bool := false
  processed_at : Option Datetime := none
deriving Repr, DecidableEq

/-- `EmailDocument.get_fingerprint` (models.py:211-219). -/
def EmailDocument.get_fingerprint (doc : EmailDocument) : String :=
  String.mk (docFingerprintL doc.subject.data doc.received_date)

/-! ### Registry (`src/stub/registry.py`); the mutable `self.stubs` list is threaded
explicitly, and the save-to-disk side effect is modelled separately (see persistence). -/

/-- `StubRegistry.get_stub_by_id` (registry.py:91-105): first entry with the id. -/
def get_stub_by_id (id : String) (stubs : List StubEntry) : Option StubEntry :=
  stubs.find? (fun st => st.outlook_entry_id == id)

/-- `StubRegistry.find_by_story_id` (registry.py:107-126): first PENDING entry with the
story id; Python `if not story_id` guards the empty string. -/
def find_by_story_id (sid : String) (stubs : List StubEntry) : Option StubEntry :=
  if sid == "" then none
  else stubs.find? (fun st => st.status == "pending" && st.story_id == some sid)

/-- `StubRegistry.find_by_fingerprint` (registry.py:128-149). -/
def find_by_fingerprint (fp : String) (stubs : List StubEntry) : Option StubEntry :=
  if fp == "" then none
  else stubs.find? (fun st => st.status == "pending" && st.fingerprint == fp)

/-- `StubRegistry.add_stub` (registry.py:60-89): duplicate guard on the entry id, then
the entry is forced to `pending` / no completion timestamp and appended. -/
def add_stub (e : StubEntry) (stubs : List StubEntry) : Bool × List StubEntry :=
  match get_stub_by_id e.outlook_entry_id stubs with
  | some _ => (false, stubs)
  | none => (true, stubs ++ [{ e with status := "pending", completed_at := none }])

/-- `StubRegistry.update_status` (registry.py:151-178): mutate the first entry with the
id; `completed_at or datetime.now()` becomes `completedAt.getD now`. -/
def update_status (id ns : String) (completedAt : Option Datetime) (now : Datetime) :
    List StubEntry → Bool × List StubEntry
  | [] => (false, [])
  | st :: rest =>
    if st.outlook_entry_id == id then
      (true, { st with status := ns, completed_at := some (completedAt.getD now) } :: rest)
    else
      let r := update_status id ns completedAt now rest
      (r.1, st :: r.2)

/-- `StubRegistry.update_stub_entry_id` (registry.py:180-211). -/
def update_stub_entry_id (oldId newId : String) :
    List StubEntry → Bool × List StubEntry
  | [] => (false, [])
  | st :: rest =>
    if st.outlook_entry_id == oldId then
      (true, { st with outlook_entry_id := newId } :: rest)
    else
      let r := update_stub_entry_id oldId newId rest
      (r.1, st :: r.2)

/-- `StubRegistry.get_all_pending` (registry.py:213-220). -/
def get_all_pending (stubs : List StubEntry) : List StubEntry :=
  stubs.filter (fun st => st.status == "pending")

/-- `StubRegistry.get_all_completed` (registry.py:222-229). -/
def get_all_completed (stubs : List StubEntry) : List StubEntry :=
  stubs.filter (fun st => st.status == "completed")

/-! ### Persistence (`StubRegistry.save` / `load`, `StubEntry.to_dict` / `from_dict`).
The JSON file is modelled as the list of JSON objects it holds (`json.dump`/`json.load`
are a faithful injection on these string/null-valued records). -/

/-- One JSON object of the registry document (registry.py schema, models.py:275-285). -/
structure StubDict where
  outlook_entry_id : String
  story_id : Option String
  fingerprint : String
  subject : String
  received_time : String
  status : String
  completed_at : Option String
deriving Repr, DecidableEq

/-- `datetime.isoformat()` for naive datetimes:
`YYYY-MM-DDTHH:MM:SS`, with `.ffffff` appended only when the microsecond is nonzero. -/
def isoChars (d : Datetime) : List Char :=
  padDigits 4 d.year ++ '-' :: padDigits 2 d.month ++ '-' :: padDigits 2 d.day
    ++ 'T' :: padDigits 2 d.hour ++ ':' :: padDigits 2 d.minute ++ ':' :: padDigits 2 d.second
    ++ (if d.microsecond = 0 then [] else '.' :: padDigits 6 d.microsecond)

def Datetime.isoformat (d : Datetime) : String := String.mk (isoChars d)

/-- Fixed-width digit-run parser: `parseAcc w acc l` consumes exactly `w` digits. -/
def parseAcc : Nat → Nat → List Char → Option (Nat × List Char)
  | 0, acc, l => some (acc, l)
  | w + 1, acc, l =>
    match l with
    | [] => none
    | c :: rest => if isDigitC c then parseAcc w (acc * 10 + (c.toNat - 48)) rest else none

def expectChar (c : Char) : List Char → Option (List Char)
  | [] => none
  | x :: rest => if x = c then some rest else none

/-- `datetime.fromisoformat` restricted to the naive format `isoformat` writes. -/
def fromisoformatL (l : List Char) : Option Datetime := do
  let (y, l) ← parseAcc 4 0 l
  let l ← expectChar '-' l
  let (mo, l) ← parseAcc 2 0 l
  let l ← expectChar '-' l
  let (da, l) ← parseAcc 2 0 l
  let l ← expectChar 'T' l
  let (hh, l) ← parseAcc 2 0 l
  let l ← expectChar ':' l
  let (mi, l) ← parseAcc 2 0 l
  let l ← expectChar ':' l
  let (ss, l) ← parseAcc 2 0 l
  match l with
  | [] => some ⟨y, mo, da, hh, mi, ss, 0⟩
  | c :: rest =>
    if c = '.' then
      match parseAcc 6 0 rest with
      | some (us, []) => some ⟨y, mo, da, hh, mi, ss, us⟩
      | _ => none
    else none

def Datetime.fromisoformat (s : String) : Option Datetime := fromisoformatL s.data

/-- `StubEntry.to_dict` (models.py:275-285). -/
def StubEntry.to_dict (e : StubEntry) : StubDict :=
  { outlook_entry_id := e.outlook_entry_id, story_id := e.story_id,
    fingerprint := e.fingerprint, subject := e.subject,
    received_time := e.received_time.isoformat, status := e.status,
    completed_at := e.completed_at.map Datetime.isoformat }

/-- `StubEntry.from_dict` (models.py:287-293); Python's falsy guard
`if data.get("completed_at")` skips parsing for `None` and for `""`. -/
def StubEntry.from_dict (d : StubDict) : Option StubEntry := do
  let rt ← Datetime.fromisoformat d.received_time
  let ca ←
    match d.completed_at with
    | none => some none
    | some s => if s = "" then some none else (Datetime.fromisoformat s).map some
  some { outlook_entry_id := d.outlook_entry_id, story_id := d.story_id,
         fingerprint := d.fingerprint, subject := d.subject,
         received_time := rt, status := d.status, completed_at := ca }

/-- `StubRegistry.save` (registry.py:255-278): the written document. -/
def registrySave (stubs : List StubEntry) : List StubDict :=
  stubs.map StubEntry.to_dict

/-- `StubRegistry.load` (registry.py:280-303): a parse failure raises inside the list
comprehension and is caught, leaving `self.stubs` unassigned — hence `Option`. -/
def registryLoad : List StubDict → Option (List StubEntry)
  | [] => some []
  | d :: rest => do
    let e ← StubEntry.from_dict d
    let es ← registryLoad rest
    some (e :: es)

/-- Width bounds that every Python `datetime` satisfies (its constructor enforces
`1 ≤ year ≤ 9999`, `1 ≤ month ≤ 12`, ..., `0 ≤ microsecond < 1000000`). -/
def Datetime.widthOk (d : Datetime) : Prop :=
  d.year < 10000 ∧ d.month < 100 ∧ d.day < 100 ∧ d.hour < 100 ∧ d.minute < 100 ∧
    d.second < 100 ∧ d.microsecond < 1000000

instance (d : Datetime) : Decidable d.widthOk := by
  unfold Datetime.widthOk; infer_instance

def optWidthOk : Option Datetime → Prop
  | none => True
  | some d => d.widthOk

instance : (o : Option Datetime) → Decidable (optWidthOk o)
  | none => isTrue trivial
  | some d => inferInstanceAs (Decidable d.widthOk)

/-! ### Outlook connector (`src/outlook/extractor.py`).
A mailbox is a list of items, each with its current EntryID and folder.  Per the
repository's own documentation (registry.py:184-186: "When an email is moved in
Outlook, its EntryID changes"), a successful `move_email` assigns the item a fresh
EntryID, which the caller never learns (`move_email` returns only a Bool,
extractor.py:171-200); `GetItemFromID` on a stale id raises, which `move_email`
catches and turns into `False`. -/

structure MailItem where
  entryId : String
  folder : String
deriving Repr, DecidableEq

structure OutlookState where
  items : List MailItem
  counter : Nat
deriving Repr, DecidableEq

def sourceFolder : String := "source"
def indexedFolder : String := "indexed"
def stubsFolder : String := "stubs"
def processedFolder : String := "processed"

/-- Fresh EntryIDs assigned by Outlook on a move; the leading `#` keeps them apart
from caller-chosen ids in concrete scenarios. -/
def freshId (n : Nat) : String := "#" ++ Nat.repr n

def moveFirst (id fresh folder : String) : List MailItem → List MailItem
  | [] => []
  | it :: rest =>
    if it.entryId == id then { entryId := fresh, folder := folder } :: rest
    else it :: moveFirst id fresh folder rest

/-- `OutlookExtractor.move_email` (extractor.py:171-200). -/
def move_email (st : OutlookState) (id folder : String) : Bool × OutlookState :=
  match st.items.find? (fun it => it.entryId == id) with
  | some _ =>
    (true, { items := moveFirst id (freshId st.counter) folder st.items,
             counter := st.counter + 1 })
  | none => (false, st)

/-- Python runtime values crossing the pipeline/extractor boundary: `move_to_stubs`
returns a plain bool, which the ingestion pipeline tries to unpack as a pair. -/
inductive PyVal where
  | pyBool (b : Bool)
  | pyPair (x y : PyVal)
deriving Repr, DecidableEq

/-- `OutlookExtractor.move_to_stubs` (extractor.py:206-208): returns the Bool of
`move_email` as a Python value. -/
def move_to_stubs (st : OutlookState) (id : String) : PyVal × OutlookState :=
  let r := move_email st id stubsFolder
  (PyVal.pyBool r.1, r.2)

/-- Python tuple unpacking `a, b = v`: a bool is not iterable and raises `TypeError`. -/
def unpackPair : PyVal → Except String (PyVal × PyVal)
  | .pyPair a b => .ok (a, b)
  | .pyBool _ => .error "cannot unpack non-iterable bool object"

def pyTruthy : PyVal → Bool
  | .pyBool b => b
  | .pyPair _ _ => true

/-- Combined system state: the mailbox plus the registry list. -/
structure SysState where
  mail : OutlookState
  registry : List StubEntry
deriving Repr, DecidableEq

/-! ### Matcher (`src/stub/matcher.py`) -/

/-- `StubMatcher.find_matching_stub` (matcher.py:44-77): story id first (guarded by
Python truthiness), then the fingerprint computed by `EmailDocument.get_fingerprint`. -/
def find_matching_stub (doc : EmailDocument) (stubs : List StubEntry) : Option StubEntry :=
  let byStory :=
    match doc.bloomberg_metadata.story_id with
    | some sid => if sid == "" then none else find_by_story_id sid stubs
    | none => none
  match byStory with
  | some st => some st
  | none =>
    let fp := doc.get_fingerprint
    if fp == "" then none else find_by_fingerprint fp stubs

/-- `StubMatcher.complete_stub` (matcher.py:109-145): move the stub's message to the
archive folder, then `update_status(..., "completed", datetime.now())`.  The move
returns only a success flag; no identifier is captured and `update_stub_entry_id`
is never called. -/
def complete_stub (e : StubEntry) (now : Datetime) (s : SysState) : Bool × SysState :=
  let mv := move_email s.mail e.outlook_entry_id processedFolder
  if mv.1 then
    let up := update_status e.outlook_entry_id "completed" (some now) now s.registry
    (up.1, { mail := mv.2, registry := up.2 })
  else (false, { s with mail := mv.2 })

/-- `StubMatcher.process_complete_email` (matcher.py:198-230). -/
def process_complete_email (doc : EmailDocument) (now : Datetime) (s : SysState) :
    (Bool × Option StubEntry) × SysState :=
  match find_matching_stub doc s.registry with
  | none => ((false, none), s)
  | some st =>
    let r := complete_stub st now s
    ((r.1, some st), r.2)

/-! ### Ingestion pipeline stub path (`src/orchestration/ingestion_pipeline.py`) -/

/-- Raw email dict fields read by `_process_stub`. -/
structure RawEmail where
  outlook_entry_id : String
  subject : String
  body : String
  received_date : Datetime
deriving Repr, DecidableEq

/-- `IngestionStats` (ingestion_pipeline.py:24-39), the counter fields. -/
structure IngestionStats where
  total_emails_processed : Nat := 0
  complete_indexed : Nat := 0
  stubs_created : Nat := 0
  stubs_completed : Nat := 0
  errors : Nat := 0
deriving Repr, DecidableEq

/-- The `StubEntry` built by `_process_stub` (ingestion_pipeline.py:199-210); the
cleaning and metadata collaborators (out of scope) are collapsed into the
`extractStoryId` parameter supplying `metadata.story_id`. -/
def pipelineStubEntry (extractStoryId : RawEmail → Option String) (e : RawEmail) : StubEntry :=
  { outlook_entry_id := e.outlook_entry_id, story_id := extractStoryId e,
    fingerprint := create_fingerprint e.subject e.received_date,
    subject := e.subject, received_time := e.received_date,
    status := "pending", completed_at := none }

/-- `IngestionPipeline._process_stub` (ingestion_pipeline.py:172-227): register, then
`success, new_entry_id = move_to_stubs(...)`.  The right-hand side is evaluated first
(the move happens), then unpacking the returned bool raises `TypeError`, which the
surrounding `except` turns into `errors += 1`. -/
def process_stub (extractStoryId : RawEmail → Option String) (e : RawEmail)
    (s : SysState) (stats : IngestionStats) : SysState × IngestionStats :=
  let reg := add_stub (pipelineStubEntry extractStoryId e) s.registry
  let mv := move_to_stubs s.mail e.outlook_entry_id
  match unpackPair mv.1 with
  | .ok r =>
    if pyTruthy r.1 then
      ({ mail := mv.2, registry := reg.2 },
       { stats with stubs_created := stats.stubs_created + 1 })
    else
      ({ mail := mv.2, registry := reg.2 },
       { stats with errors := stats.errors + 1 })
  | .error _ =>
    ({ mail := mv.2, registry := reg.2 },
     { stats with errors := stats.errors + 1 })

/-! ### Stub detector (`src/stub/detector.py`).
The regexes of `StubDetector` are embedded directly.  Each `\s*`/`\s+`/`[a-z]+` run is
followed by an atom disjoint from the run's class, so greedy matching is deterministic
and is embedded as a maximal `dropWhile`.  `re.IGNORECASE` character comparison is
embedded as comparison after `Char.toLower`, and under `IGNORECASE` the class `[A-Z]`
matches both cases. -/

def earlyAlertThreshold : Nat := 500
def minContentAfterSource : Nat := 200
def minCompleteLength : Nat := 500

/-- Case-insensitive literal at the head: remainder after the needle, or `none`. -/
def ciStrip : List Char → List Char → Option (List Char)
  | [], l => some l
  | _ :: _, [] => none
  | n :: ns, c :: cs => if c.toLower = n.toLower then ciStrip ns cs else none

/-- Case-sensitive literal at the head. -/
def litStrip : List Char → List Char → Option (List Char)
  | [], l => some l
  | _ :: _, [] => none
  | n :: ns, c :: cs => if c = n then litStrip ns cs else none

/-- Remainder after the first (leftmost, case-insensitive) occurrence of the needle. -/
def scanLitCI (needle : List Char) : List Char → Option (List Char)
  | [] => ciStrip needle []
  | c :: rest =>
    match ciStrip needle (c :: rest) with
    | some r => some r
    | none => scanLitCI needle rest

/-- Case-sensitive substring test (the fixed sentinel literal of claim C5). -/
def containsLit (needle : List Char) : List Char → Bool
  | [] => (litStrip needle []).isSome
  | c :: rest => (litStrip needle (c :: rest)).isSome || containsLit needle rest

/-- Disclaimer pattern 1, `External Email\s*-\s*Be CAUTIOUS.*?button\.` (DOTALL, CI),
matched at the current position; returns the remainder after the match. -/
def pat1At (l : List Char) : Option (List Char) :=
  match ciStrip "External Email".data l with
  | none => none
  | some r1 =>
    match r1.dropWhile isPySpace with
    | [] => none
    | c :: r3 =>
      if c = '-' then
        match ciStrip "Be CAUTIOUS".data (r3.dropWhile isPySpace) with
        | none => none
        | some r5 => scanLitCI "button.".data r5
      else none

/-- The lookahead `(?=\n\n|\n[A-Z])` of disclaimer pattern 2 under `IGNORECASE`. -/
def lookNL : List Char → Bool
  | [] => false
  | c :: rest =>
    if c = '\n' then
      match rest with
      | [] => false
      | c2 :: _ => c2 = '\n' || isAsciiLetter c2
    else false

/-- Minimal `.*?` (DOTALL) extension up to the lookahead: the first suffix where it holds. -/
def seekLook : List Char → Option (List Char)
  | [] => none
  | c :: rest => if lookNL (c :: rest) then some (c :: rest) else seekLook rest

/-- Disclaimer pattern 2, `External Email.*?(?=\n\n|\n[A-Z])` (DOTALL, CI), at the
current position. -/
def pat2At (l : List Char) : Option (List Char) :=
  match ciStrip "External Email".data l with
  | none => none
  | some r => seekLook r

/-- `re.sub(pattern, '', s)`: scan left to right, drop each leftmost match, continue
after it.  Both disclaimer patterns consume at least one character per match, so
`length + 1` fuel suffices. -/
def subAllF : Nat → (List Char → Option (List Char)) → List Char → List Char
  | 0, _, l => l
  | fuel + 1, patAt, l =>
    match patAt l with
    | some r => subAllF fuel patAt r
    | none =>
      match l with
      | [] => []
      | c :: rest => c :: subAllF fuel patAt rest

/-- `StubDetector._remove_email_disclaimer` (detector.py:276-296). -/
def removeDisclaimer (l : List Char) : List Char :=
  let r1 := subAllF (l.length + 1) pat1At l
  let r2 := subAllF (r1.length + 1) pat2At r1
  pyStripL r2

/-- `\(Bloomberg\)\s*--` (CI) at the current position. -/
def bloomAt (l : List Char) : Bool :=
  match ciStrip "(Bloomberg)".data l with
  | none => false
  | some r =>
    match r.dropWhile isPySpace with
    | c :: c2 :: _ => c = '-' && c2 = '-'
    | _ => false

/-- `StubDetector._has_bloomberg_article_pattern` (detector.py:323-333). -/
def hasBloombergPattern : List Char → Bool
  | [] => bloomAt []
  | c :: rest => bloomAt (c :: rest) || hasBloombergPattern rest

/-- One required class character, then the rest of the greedy run. -/
def reqPlus (p : Char → Bool) : List Char → Option (List Char)
  | [] => none
  | c :: rest => if p c then some (rest.dropWhile p) else none

/-- One required class character. -/
def reqOne (p : Char → Bool) : List Char → Option (List Char)
  | [] => none
  | c :: rest => if p c then some rest else none

/-- `^By\s+[A-Z][a-z]+\s+[A-Z]` (case-sensitive) at the current position. -/
def authorAt (l : List Char) : Bool :=
  (do
    let r ← expectChar 'B' l
    let r ← expectChar 'y' r
    let r ← reqPlus isPySpace r
    let r ← reqOne isUpperAZ r
    let r ← reqPlus isLowerAZ r
    let r ← reqPlus isPySpace r
    let _ ← reqOne isUpperAZ r
    pure ()).isSome

/-- MULTILINE search: try the position predicate at every position where `^` holds
(position 0 or just after a newline). -/
def mlScan (atP : List Char → Bool) : List Char → Bool → Bool
  | [], atStart => atStart && atP []
  | c :: rest, atStart => (atStart && atP (c :: rest)) || mlScan atP rest (c = '\n')

/-- `StubDetector._has_author_at_start` (detector.py:335-347): only the first 500 chars. -/
def hasAuthorAtStart (l : List Char) : Bool :=
  mlScan authorAt (l.take 500) true

/-- MULTILINE search returning `match.start()`. -/
def mlScanPos (atP : List Char → Bool) : List Char → Nat → Bool → Option Nat
  | [], pos, atStart => if atStart && atP [] then some pos else none
  | c :: rest, pos, atStart =>
    if atStart && atP (c :: rest) then some pos
    else mlScanPos atP rest (pos + 1) (c = '\n')

/-- MULTILINE search with `re.search(..., pos)`: only matches starting at `minP` or later. -/
def mlScanPosFrom (atP : List Char → Bool) : List Char → Nat → Bool → Nat → Option Nat
  | [], pos, atStart, minP => if Nat.ble minP pos && atStart && atP [] then some pos else none
  | c :: rest, pos, atStart, minP =>
    if Nat.ble minP pos && atStart && atP (c :: rest) then some pos
    else mlScanPosFrom atP rest (pos + 1) (c = '\n') minP

/-- `^\s*Source:` holds at this position (the trailing `\s*` does not affect the start). -/
def srcAt (l : List Char) : Bool :=
  (ciStrip "Source:".data (l.dropWhile isPySpace)).isSome

/-- `StubDetector._find_source_position` (detector.py:349-364). -/
def findSourcePosition (l : List Char) : Option Nat :=
  mlScanPos srcAt l 0 true

/-- `str.find(ch, pos)`: first index at or after `minP` holding `ch`. -/
def findNLFrom : List Char → Nat → Nat → Option Nat
  | [], _, _ => none
  | c :: rest, pos, minP =>
    if Nat.ble minP pos && (c = '\n') then some pos else findNLFrom rest (pos + 1) minP

/-- `\s*$` matches a prefix of `l` (`$` MULTILINE: before `\n` or at the end). -/
def wsThenEOL : List Char → Bool
  | [] => true
  | c :: rest =>
    if c = '\n' then true else if isPySpace c then wsThenEOL rest else false

/-- `\s*:?\s*$` matches a prefix of `l`. -/
def tailColonEOL : List Char → Bool
  | [] => true
  | c :: rest =>
    if c = '\n' then true
    else if c = ':' then wsThenEOL rest
    else if isPySpace c then tailColonEOL rest
    else false

/-- `^\s*{marker}\s*:?\s*$` (CI) holds at this position. -/
def markerAt (marker : List Char) (l : List Char) : Bool :=
  match ciStrip marker (l.dropWhile isPySpace) with
  | some r => tailColonEOL r
  | none => false

/-- `self.metadata_markers + ["Alert", "To suspend", "To modify"]` (detector.py:81,392). -/
def metadataMarkers : List (List Char) :=
  ["Tickers".data, "People".data, "Topics".data, "Alert".data, "To suspend".data,
   "To modify".data]

/-- The `earliest_metadata_pos` loop of `_extract_content_after_source`
(detector.py:389-401), initialised to `len(body)`. -/
def earliestMarkerPos (body : List Char) (contentStart : Nat) : Nat :=
  metadataMarkers.foldl
    (fun best m =>
      match mlScanPosFrom (markerAt m) body 0 true contentStart with
      | some p => if p < best then p else best
      | none => best)
    body.length

/-- `StubDetector._remove_headers` (detector.py:298-321).  The five header patterns
`^From:.*$` ... `^Sent:.*$` and `^\s*$` are line-local (`.` does not cross newlines),
so the sequence of `re.sub`s blanks the content of each matching line, keeping the
newlines; embedded per line. -/
def headerLine (line : List Char) : Bool :=
  let low := pyLowerL line
  ("from:".data.isPrefixOf low) || ("to:".data.isPrefixOf low) ||
    ("subject:".data.isPrefixOf low) || ("date:".data.isPrefixOf low) ||
    ("sent:".data.isPrefixOf low) || line.all isPySpace

def splitNL : List Char → List (List Char)
  | [] => [[]]
  | c :: rest =>
    let r := splitNL rest
    if c = '\n' then [] :: r
    else
      match r with
      | [] => [[c]]
      | h :: t => (c :: h) :: t

def joinNL : List (List Char) → List Char
  | [] => []
  | [l] => l
  | l :: ls => l ++ '\n' :: joinNL ls

def removeHeaders (l : List Char) : List Char :=
  pyStripL (joinNL ((splitNL l).map (fun ln => if headerLine ln then [] else ln)))

/-- `StubDetector._extract_content_after_source` (detector.py:366-409). -/
def extractContentAfterSource (body : List Char) (srcPos : Nat) : List Char :=
  let lineEnd := (findNLFrom body 0 srcPos).getD body.length
  let contentStart := lineEnd + 1
  let metaPos := earliestMarkerPos body contentStart
  removeHeaders (pyStripL ((body.drop contentStart).take (metaPos - contentStart)))

/-- `StubDetector.detect_from_email` (detector.py:89-164), parametrised by the
text-cleaning collaborator (spec §4.2: the classifier is pure given a cleaner).
Returns `true` for STUB. -/
def detect_from_email (clean : String → String) (rawBody : String) : Bool :=
  let bfa := removeDisclaimer rawBody.data
  if hasBloombergPattern bfa then false
  else if hasAuthorAtStart bfa then false
  else
    match findSourcePosition bfa with
    | some pos =>
      if pos < earlyAlertThreshold then
        if (pyStripL (extractContentAfterSource bfa pos)).length < minContentAfterSource
        then true
        else false
      else false
    | none =>
      if (pyStripL (clean rawBody).data).length < minCompleteLength then true else false

/-- `StubDetector.classify` (detector.py:166-179). -/
def classify (clean : String → String) (rawBody : String) : String :=
  if detect_from_email clean rawBody then "stub" else "complete"

/-- The identity cleaner (the `MockCleaner` of detector.py's own test harness). -/
def idClean (s : String) : String := s

/-! ### Concrete scenario states used by the claim theorems -/

def c1Date : Datetime := ⟨2024, 1, 15, 10, 30, 0, 0⟩

/-- The stub of spec §8 Scenario C, registered the way the intake path registers it
(fingerprint from `StubRegistry.create_fingerprint`). -/
def c1Stub : StubEntry :=
  { outlook_entry_id := "STUB_ENTRY_1", story_id := none,
    fingerprint := create_fingerprint "Fed Raises Rates" c1Date,
    subject := "Fed Raises Rates", received_time := c1Date,
    status := "pending", completed_at := none }

def c1Registry : List StubEntry := (add_stub c1Stub []).2

/-- The later complete message of Scenario C: decorated subject, same date, no story id. -/
def c1Doc : EmailDocument :=
  { outlook_entry_id := "COMPLETE_1", subject := "(XX) Fed Raises Rates",
    body := "Full article text", raw_body := "Full article text",
    sender := "news@example.com", received_date := c1Date,
    bloomberg_metadata := { story_id := none }, status := "complete" }

def c1Mail : OutlookState := ⟨[⟨"STUB_ENTRY_1", stubsFolder⟩], 0⟩

def c1Now : Datetime := ⟨2024, 1, 15, 12, 0, 0, 0⟩

def c2Stub : StubEntry :=
  { outlook_entry_id := "A", story_id := none, fingerprint := "fed raises rates_20240115",
    subject := "Fed Raises Rates", received_time := c1Date,
    status := "pending", completed_at := none }

def c2State : SysState := ⟨⟨[⟨"A", stubsFolder⟩], 0⟩, [c2Stub]⟩

def c3Email : RawEmail := ⟨"B", "Some Story", "Alert:\nX\nSource: Y", c1Date⟩

def c3State : SysState := ⟨⟨[⟨"B", sourceFolder⟩], 0⟩, []⟩

def c3NoStory : RawEmail → Option String := fun _ => none

def c4Date : Datetime := ⟨2024, 1, 15, 0, 0, 0, 0⟩

/-- A body whose disclaimer-removal preprocessing swallows the sentinel. -/
def c5Body : String := "External Email note (Bloomberg) -- text\n\nTail"

/-- Spec §8 Scenario B: sentinel, three paragraphs of prose, trailing Alert/Source block. -/
def c5ProseBody : String :=
  "(Bloomberg) -- Para one of prose.\n\nPara two of prose.\n\nPara three of prose.\n\nAlert: X\nSource: Y"

/-- Spec §8 Scenario A body. -/
def c6Body : String := "Alert:\nX\nSource: Y\nTickers\nAAPL"

def c7r : StubEntry := ⟨"W7", some "SID1", "fp_1", "Subj", c4Date, "pending", none⟩

def c7r2 : StubEntry := ⟨"W7", none, "fp_2", "Other", c4Date, "completed", some c4Date⟩

def c8List : List StubEntry :=
  [⟨"E1", some "S1", "fp1", "A", ⟨2024, 1, 15, 10, 30, 0, 0⟩, "pending", none⟩,
   ⟨"E2", none, "fp2", "B", ⟨2024, 1, 15, 10, 30, 5, 123⟩, "completed",
    some ⟨2024, 1, 16, 1, 2, 3, 999999⟩⟩]

def c10e : StubEntry := ⟨"W10", none, "fp10", "S", c4Date, "completed", some c4Date⟩

/-! ### Lemmas for the fingerprint prefix invariance (claim C4) -/

theorem dataAppend (a b : String) : (a ++ b).data = a.data ++ b.data := rfl

theorem takeWhile_all_append {p : Char → Bool} {caps : List Char} {x : Char} {t : List Char}
    (h : ∀ c ∈ caps, p c = true) (hx : p x = false) :
    (caps ++ x :: t).takeWhile p = caps := by
  induction caps with
  | nil => simp [List.takeWhile, hx]
  | cons c cs ih =>
    have hc : p c = true := h c (by simp)
    simp only [List.cons_append, List.takeWhile, hc, List.append_eq]
    rw [ih (fun c hm => h c (by simp [hm]))]

theorem dropWhile_all_append {p : Char → Bool} {caps : List Char} {x : Char} {t : List Char}
    (h : ∀ c ∈ caps, p c = true) (hx : p x = false) :
    (caps ++ x :: t).dropWhile p = x :: t := by
  induction caps with
  | nil => simp [List.dropWhile, hx]
  | cons c cs ih =>
    have hc : p c = true := h c (by simp)
    simp only [List.cons_append, List.dropWhile, hc]
    exact ih (fun c hm => h c (by simp [hm]))

theorem dropWhile_idem (p : Char → Bool) (l : List Char) :
    (l.dropWhile p).dropWhile p = l.dropWhile p := by
  induction l with
  | nil => rfl
  | cons c t ih =>
    by_cases hc : p c = true
    · simp only [List.dropWhile, hc]; exact ih
    · have hc' : p c = false := by revert hc; cases p c <;> simp
      simp [List.dropWhile, hc']

theorem pyStripL_dropWhile (l : List Char) :
    pyStripL (l.dropWhile isPySpace) = pyStripL l := by
  unfold pyStripL
  rw [dropWhile_idem]

theorem stripPfxMatch_tok {caps : List Char} (t : List Char)
    (h1 : caps ≠ []) (h2 : ∀ c ∈ caps, isUpperAZ c = true) :
    stripPfxMatch ('(' :: (caps ++ ')' :: t)) = some (t.dropWhile isPySpace) := by
  have hpar : isUpperAZ ')' = false := by decide
  simp only [stripPfxMatch]
  rw [takeWhile_all_append h2 hpar, dropWhile_all_append h2 hpar]
  simp [List.isEmpty_eq_true, h1]

/-- Claim C4 (counterexample): the invariance fails, as stated, for a subject that
itself begins with a bracketed all-caps token — normalization strips exactly one
token, so the two sides strip different tokens. -/
theorem c4_counterexample :
    String.mk ('(' :: (['C', 'D'] ++ [')'])) ++ " " ++ "(AB) X" = "(CD) (AB) X" ∧
    create_fingerprint "(AB) X" c4Date ≠ create_fingerprint "(CD) (AB) X" c4Date := by
  decide

/-- Claim C4 (amended): for every date, every bracketed all-caps prefix token
`(` caps `)`, and every subject that does not itself begin with a bracketed all-caps
token, `create_fingerprint subject date = create_fingerprint (prefixToken ++ " " ++
subject) date`. -/
theorem c4_fingerprint_invariant_amended (caps : List Char) (subject : String)
    (d : Datetime) (h1 : caps ≠ []) (h2 : ∀ c ∈ caps, isUpperAZ c = true)
    (h3 : stripPfxMatch subject.data = none) :
    create_fingerprint subject d =
      create_fingerprint (String.mk ('(' :: (caps ++ [')'])) ++ " " ++ subject) d := by
  unfold create_fingerprint fingerprintL normalizeSubjectL
  rw [h3]
  have hdata : (String.mk ('(' :: (caps ++ [')'])) ++ " " ++ subject).data
      = '(' :: (caps ++ ')' :: (' ' :: subject.data)) := by
    rw [dataAppend, dataAppend]
    simp
  rw [hdata, stripPfxMatch_tok _ h1 h2]
  have hsp : (' ' :: subject.data).dropWhile isPySpace = subject.data.dropWhile isPySpace := by
    simp [List.dropWhile, isPySpace]
  dsimp only
  rw [hsp, pyStripL_dropWhile]

/-- Witness for C4 (amended) at a concrete subject, prefix and date. -/
theorem c4_fingerprint_invariant_amended_witness :
    create_fingerprint "Fed Raises Rates" c4Date =
      create_fingerprint (String.mk ('(' :: (['X', 'X'] ++ [')'])) ++ " " ++ "Fed Raises Rates")
        c4Date :=
  c4_fingerprint_invariant_amended ['X', 'X'] "Fed Raises Rates" c4Date (by decide)
    (by decide) (by decide)

/-! ### Registry lemmas (claims C7, C10) -/

theorem get_stub_by_id_append_none {id : String} {st : List StubEntry} {e : StubEntry}
    (h : get_stub_by_id id st = none) (he : e.outlook_entry_id = id) :
    get_stub_by_id id (st ++ [e]) = some e := by
  unfold get_stub_by_id at h ⊢
  induction st with
  | nil => simp [List.find?, he]
  | cons a rest ih =>
    rw [List.cons_append]
    rw [List.find?_cons] at h ⊢
    cases hpa : (a.outlook_entry_id == id) with
    | true => simp [hpa] at h
    | false =>
      simp only [hpa] at h ⊢
      exact ih h

/-- Claim C7: registering a record whose external id is new succeeds and appends it as
PENDING; a second `register` with the same external id returns `false` and leaves the
registry untouched, the size grows by exactly one over the two calls, and the original
PENDING record is preserved unmodified. -/
theorem c7_register_duplicate (r r2 : StubEntry) (st : List StubEntry)
    (h : get_stub_by_id r.outlook_entry_id st = none)
    (h2 : r2.outlook_entry_id = r.outlook_entry_id) :
    (add_stub r st).1 = true ∧
    (add_stub r st).2 = st ++ [{ r with status := "pending", completed_at := none }] ∧
    add_stub r2 (add_stub r st).2 = (false, (add_stub r st).2) ∧
    (add_stub r st).2.length = st.length + 1 ∧
    get_stub_by_id r.outlook_entry_id (add_stub r st).2 =
      some { r with status := "pending", completed_at := none } := by
  have hfst : add_stub r st =
      (true, st ++ [{ r with status := "pending", completed_at := none }]) := by
    unfold add_stub
    rw [h]
  have hget : get_stub_by_id r.outlook_entry_id
      (st ++ [{ r with status := "pending", completed_at := none }]) =
      some { r with status := "pending", completed_at := none } :=
    get_stub_by_id_append_none h rfl
  refine ⟨by rw [hfst], by rw [hfst], ?_, by rw [hfst]; simp, by rw [hfst]; exact hget⟩
  rw [hfst]
  unfold add_stub
  rw [h2, hget]

/-- Witness for C7 at a concrete registry and records. -/
theorem c7_register_duplicate_witness :
    (add_stub c7r []).1 = true ∧
    (add_stub c7r []).2 = [] ++ [{ c7r with status := "pending", completed_at := none }] ∧
    add_stub c7r2 (add_stub c7r []).2 = (false, (add_stub c7r []).2) ∧
    (add_stub c7r []).2.length = ([] : List StubEntry).length + 1 ∧
    get_stub_by_id c7r.outlook_entry_id (add_stub c7r []).2 =
      some { c7r with status := "pending", completed_at := none } :=
  c7_register_duplicate c7r c7r2 [] (by decide) (by decide)

/-- Claim C10: `add_stub` stores every fresh record with status forced to `"pending"`
and `completed_at` cleared, whatever status and timestamp the caller supplied. -/
theorem c10_add_stub_forces_pending (e : StubEntry) (st : List StubEntry)
    (h : get_stub_by_id e.outlook_entry_id st = none) :
    (add_stub e st).2 = st ++ [{ e with status := "pending", completed_at := none }] ∧
    get_stub_by_id e.outlook_entry_id (add_stub e st).2 =
      some { e with status := "pending", completed_at := none } := by
  have hfst : add_stub e st =
      (true, st ++ [{ e with status := "pending", completed_at := none }]) := by
    unfold add_stub
    rw [h]
  exact ⟨by rw [hfst], by rw [hfst]; exact get_stub_by_id_append_none h rfl⟩

/-- Witness for C10: a record supplied as `"completed"` with a timestamp is stored
PENDING with no timestamp. -/
theorem c10_add_stub_forces_pending_witness :
    (add_stub c10e []).2 = [] ++ [{ c10e with status := "pending", completed_at := none }] ∧
    get_stub_by_id c10e.outlook_entry_id (add_stub c10e []).2 =
      some { c10e with status := "pending", completed_at := none } :=
  c10_add_stub_forces_pending c10e [] (by decide)

/-! ### Persistence lemmas (claim C8) -/

theorem digitRound (d : Nat) (h : d < 10) :
    isDigitC (Char.ofNat (48 + d)) = true ∧ (Char.ofNat (48 + d)).toNat - 48 = d := by
  interval_cases d <;> exact ⟨by decide, by decide⟩

theorem parseAcc_padDigits (w : Nat) : ∀ (acc n : Nat) (rest : List Char), n < 10 ^ w →
    parseAcc w acc (padDigits w n ++ rest) = some (acc * 10 ^ w + n, rest) := by
  induction w with
  | zero =>
    intro acc n rest h
    have hn : n = 0 := Nat.lt_one_iff.mp h
    subst hn
    simp [padDigits, parseAcc]
  | succ w ih =>
    intro acc n rest h
    have hd : n / 10 ^ w < 10 := by
      rw [pow_succ] at h
      exact Nat.div_lt_of_lt_mul h
    obtain ⟨hdig, hval⟩ := digitRound (n / 10 ^ w) hd
    have hmod : n % 10 ^ w < 10 ^ w := Nat.mod_lt _ (by positivity)
    have hdm : 10 ^ w * (n / 10 ^ w) + n % 10 ^ w = n := Nat.div_add_mod n (10 ^ w)
    show parseAcc (w + 1) acc
        ((Char.ofNat (48 + n / 10 ^ w) :: padDigits w (n % 10 ^ w)) ++ rest) = _
    rw [List.cons_append]
    simp only [parseAcc, hdig, if_true, hval]
    rw [ih (acc * 10 + n / 10 ^ w) (n % 10 ^ w) rest hmod]
    congr 1
    rw [Prod.mk.injEq]
    refine ⟨?_, rfl⟩
    have : (acc * 10 + n / 10 ^ w) * 10 ^ w + n % 10 ^ w
        = acc * (10 ^ w * 10) + (10 ^ w * (n / 10 ^ w) + n % 10 ^ w) := by ring
    rw [this, hdm, pow_succ]

theorem parseAcc0 (w n : Nat) (rest : List Char) (h : n < 10 ^ w) :
    parseAcc w 0 (padDigits w n ++ rest) = some (n, rest) := by
  rw [parseAcc_padDigits w 0 n rest h]
  simp

theorem expectChar_cons (c : Char) (l : List Char) : expectChar c (c :: l) = some l := by
  simp [expectChar]

set_option maxHeartbeats 2000000 in
theorem fromiso_isoChars (d : Datetime) (h : d.widthOk) :
    fromisoformatL (isoChars d) = some d := by
  obtain ⟨y, mo, da, hh, mi, ss, us⟩ := d
  obtain ⟨h1, h2, h3, h4, h5, h6, h7⟩ := h
  unfold isoChars fromisoformatL
  dsimp only at h1 h2 h3 h4 h5 h6 h7 ⊢
  simp only [List.append_assoc, List.cons_append, Option.bind_eq_bind]
  rw [parseAcc0 4 y _ h1]
  simp only [Option.some_bind]
  rw [expectChar_cons]
  simp only [Option.some_bind]
  rw [parseAcc0 2 mo _ h2]
  simp only [Option.some_bind]
  rw [expectChar_cons]
  simp only [Option.some_bind]
  rw [parseAcc0 2 da _ h3]
  simp only [Option.some_bind]
  rw [expectChar_cons]
  simp only [Option.some_bind]
  rw [parseAcc0 2 hh _ h4]
  simp only [Option.some_bind]
  rw [expectChar_cons]
  simp only [Option.some_bind]
  rw [parseAcc0 2 mi _ h5]
  simp only [Option.some_bind]
  rw [expectChar_cons]
  simp only [Option.some_bind]
  rw [parseAcc0 2 ss _ h6]
  simp only [Option.some_bind]
  by_cases hus : us = 0
  · subst hus
    simp
  · rw [if_neg hus]
    dsimp only
    rw [if_pos rfl]
    rw [← List.append_nil (padDigits 6 us), parseAcc0 6 us [] h7]

theorem padDigits_length (w : Nat) : ∀ n, (padDigits w n).length = w := by
  induction w with
  | zero => intro n; rfl
  | succ w ih => intro n; simp [padDigits, ih]

theorem isoformat_ne_empty (d : Datetime) : d.isoformat ≠ "" := by
  intro hcontra
  have hlen : (isoChars d).length = 0 :=
    congrArg (fun s : String => s.data.length) hcontra
  unfold isoChars at hlen
  simp [padDigits_length] at hlen

theorem from_dict_to_dict (e : StubEntry) (h1 : e.received_time.widthOk)
    (h2 : optWidthOk e.completed_at) :
    StubEntry.from_dict e.to_dict = some e := by
  unfold StubEntry.to_dict StubEntry.from_dict Datetime.fromisoformat
  have hrt : fromisoformatL (Datetime.isoformat e.received_time).data
      = some e.received_time := fromiso_isoChars e.received_time h1
  rw [hrt]
  simp only [Option.bind_eq_bind, Option.some_bind]
  cases hca : e.completed_at with
  | none =>
    dsimp only [Option.map]
    rw [← hca]
  | some ca =>
    have hcw : ca.widthOk := by
      have := h2
      rw [hca] at this
      exact this
    dsimp only [Option.map]
    rw [if_neg (isoformat_ne_empty ca)]
    have hcf : fromisoformatL (Datetime.isoformat ca).data = some ca :=
      fromiso_isoChars ca hcw
    rw [hcf]
    dsimp only [Option.map]
    rw [← hca]
    simp only [Option.some_bind]

/-- Claim C8: `save` followed by `load` reproduces an equal record set; every field,
including `received_time` (and `completed_at`) down to the microsecond, survives the
ISO round trip. -/
theorem c8_save_load_roundtrip (stubs : List StubEntry)
    (h : ∀ e ∈ stubs, e.received_time.widthOk ∧ optWidthOk e.completed_at) :
    registryLoad (registrySave stubs) = some stubs := by
  induction stubs with
  | nil => rfl
  | cons e rest ih =>
    obtain ⟨he1, he2⟩ := h e (by simp)
    have hrest := ih (fun x hx => h x (by simp [hx]))
    show registryLoad (StubEntry.to_dict e :: registrySave rest) = some (e :: rest)
    unfold registryLoad
    rw [from_dict_to_dict e he1 he2]
    simp only [Option.bind_eq_bind, Option.some_bind]
    rw [hrest]
    rfl

/-- Witness for C8 at a concrete two-record registry exercising both a populated
microsecond field and a completed record. -/
theorem c8_save_load_roundtrip_witness :
    registryLoad (registrySave c8List) = some c8List :=
  c8_save_load_roundtrip c8List (by decide)

/-! ### Matcher lemmas (claims C2, C9) -/

theorem update_status_found (id ns : String) (ca : Option Datetime) (now : Datetime)
    (stubs : List StubEntry) (r : StubEntry) (h : get_stub_by_id id stubs = some r) :
    (update_status id ns ca now stubs).1 = true ∧
    get_stub_by_id id (update_status id ns ca now stubs).2 =
      some { r with status := ns, completed_at := some (ca.getD now) } := by
  induction stubs with
  | nil => simp [get_stub_by_id, List.find?] at h
  | cons a rest ih =>
    unfold get_stub_by_id at h
    rw [List.find?_cons] at h
    cases hpa : (a.outlook_entry_id == id) with
    | true =>
      simp only [hpa] at h
      injection h with hra
      subst hra
      constructor
      · simp [update_status, hpa]
      · unfold get_stub_by_id update_status
        rw [if_pos hpa]
        rw [List.find?_cons]
        simp only [hpa]
    | false =>
      simp only [hpa] at h
      obtain ⟨ih1, ih2⟩ := ih h
      constructor
      · simp [update_status, hpa, ih1]
      · unfold update_status
        rw [if_neg (by simp [hpa])]
        unfold get_stub_by_id
        rw [List.find?_cons]
        simp only [hpa]
        exact ih2

/-- Claim C2 (counterexample): after a successful `complete_stub`, the moved message
carries a fresh EntryID while the registry still stores the old one — the registry
does not hold the refreshed identifier, because `complete_stub` never captures one and
never calls `update_stub_entry_id` (the move returns only a success flag). -/
theorem c2_counterexample :
    (complete_stub c2Stub c1Now c2State).1 = true ∧
    (complete_stub c2Stub c1Now c2State).2.mail.items.map MailItem.entryId = ["#0"] ∧
    (complete_stub c2Stub c1Now c2State).2.registry.map StubEntry.outlook_entry_id = ["A"] ∧
    (complete_stub c2Stub c1Now c2State).2.registry.map StubEntry.outlook_entry_id ≠
      (complete_stub c2Stub c1Now c2State).2.mail.items.map MailItem.entryId := by
  decide

/-- Claim C2 (amended): for every stub record present in both the mailbox and the
registry, `complete_stub` moves the message to the archive folder and marks the record
COMPLETED with the current time — but it captures no identifier and never calls
`update_external_id`: the record's stored `outlook_entry_id` is left unchanged. -/
theorem c2_complete_stub_amended (e : StubEntry) (now : Datetime) (s : SysState)
    (r : StubEntry)
    (hm : (s.mail.items.find? (fun it => it.entryId == e.outlook_entry_id)).isSome)
    (hr : get_stub_by_id e.outlook_entry_id s.registry = some r) :
    (complete_stub e now s).1 = true ∧
    get_stub_by_id e.outlook_entry_id (complete_stub e now s).2.registry =
      some { r with status := "completed", completed_at := some now } := by
  obtain ⟨it, hit⟩ := Option.isSome_iff_exists.mp hm
  obtain ⟨hu1, hu2⟩ :=
    update_status_found e.outlook_entry_id "completed" (some now) now s.registry r hr
  unfold complete_stub move_email
  rw [hit]
  dsimp only
  rw [if_pos rfl]
  exact ⟨hu1, hu2⟩

/-- Witness for C2 (amended) at the concrete one-stub state. -/
theorem c2_complete_stub_amended_witness :
    (complete_stub c2Stub c1Now c2State).1 = true ∧
    get_stub_by_id c2Stub.outlook_entry_id (complete_stub c2Stub c1Now c2State).2.registry =
      some { c2Stub with status := "completed", completed_at := some c1Now } :=
  c2_complete_stub_amended c2Stub c1Now c2State c2Stub (by decide) (by decide)

theorem find?_entry_none {id : String} {items : List MailItem}
    (h : id ∉ items.map MailItem.entryId) :
    items.find? (fun it => it.entryId == id) = none := by
  induction items with
  | nil => rfl
  | cons a rest ih =>
    simp only [List.map_cons, List.mem_cons] at h
    push_neg at h
    rw [List.find?_cons]
    have hpa : (a.entryId == id) = false := by
      simp
      exact fun hh => h.1 hh.symm
    simp only [hpa]
    exact ih h.2

theorem moveFirst_removes {id fresh folder : String} {items : List MailItem}
    (hnd : (items.map MailItem.entryId).Nodup) (hne : fresh ≠ id) :
    (moveFirst id fresh folder items).find? (fun it => it.entryId == id) = none := by
  induction items with
  | nil => rfl
  | cons a rest ih =>
    simp only [List.map_cons, List.nodup_cons] at hnd
    cases hpa : (a.entryId == id) with
    | true =>
      have haid : a.entryId = id := by
        exact eq_of_beq hpa
      unfold moveFirst
      rw [if_pos hpa]
      rw [List.find?_cons]
      have hfr : (fresh == id) = false := by simp [hne]
      simp only [hfr]
      apply find?_entry_none
      rw [← haid]
      exact hnd.1
    | false =>
      unfold moveFirst
      rw [if_neg (by simp [hpa])]
      rw [List.find?_cons]
      simp only [hpa]
      exact ih hnd.2

theorem complete_stub_nofind (e : StubEntry) (now : Datetime) (s : SysState)
    (h : s.mail.items.find? (fun it => it.entryId == e.outlook_entry_id) = none) :
    complete_stub e now s = (false, s) := by
  unfold complete_stub move_email
  rw [h]
  rfl

theorem freshId_head (n : Nat) : (freshId n).data.head? = some '#' := rfl

/-- Claim C9: calling `complete_stub` twice on the same record is safe and the second
call is a no-op — the system state (mailbox and registry) after the second call equals
the state after the first.  If the first move succeeded, the message now carries a
fresh EntryID, so the second `GetItemFromID` on the stale id fails and `complete_stub`
returns `False` without touching the registry; if the first move failed, nothing
changed at all.  Hypotheses: mailbox EntryIDs are distinct, and the record's id is not
of the fresh-id form. -/
theorem c9_complete_stub_idempotent (e : StubEntry) (n1 n2 : Datetime) (s : SysState)
    (hnd : (s.mail.items.map MailItem.entryId).Nodup)
    (hhd : e.outlook_entry_id.data.head? ≠ some '#') :
    complete_stub e n2 (complete_stub e n1 s).2 = (false, (complete_stub e n1 s).2) := by
  have hfresh : ∀ n, freshId n ≠ e.outlook_entry_id := by
    intro n hcontra
    apply hhd
    rw [← hcontra]
    exact freshId_head n
  cases hfind : s.mail.items.find? (fun it => it.entryId == e.outlook_entry_id) with
  | none =>
    rw [complete_stub_nofind e n1 s hfind]
    exact complete_stub_nofind e n2 s hfind
  | some it =>
    have h1 : (complete_stub e n1 s).2.mail.items =
        moveFirst e.outlook_entry_id (freshId s.mail.counter) processedFolder
          s.mail.items := by
      unfold complete_stub move_email
      rw [hfind]
      dsimp only
      rw [if_pos rfl]
    have h2 : (complete_stub e n1 s).2.mail.items.find?
        (fun it2 => it2.entryId == e.outlook_entry_id) = none := by
      rw [h1]
      exact moveFirst_removes hnd (hfresh s.mail.counter)
    exact complete_stub_nofind e n2 _ h2

/-- Witness for C9 at the concrete one-stub state and two distinct clock values. -/
theorem c9_complete_stub_idempotent_witness :
    complete_stub c2Stub c1Now (complete_stub c2Stub c1Date c2State).2 =
      (false, (complete_stub c2Stub c1Date c2State).2) :=
  c9_complete_stub_idempotent c2Stub c1Date c1Now c2State (by decide) (by decide)

/-! ### Pipeline theorems (claim C3) -/

/-- Claim C3 (counterexample): the claim's "never moved" conjunct is false — the
right-hand side of `success, new_entry_id = move_to_stubs(...)` is evaluated before
the unpack raises, so on a successful connector move the email IS moved to the stubs
folder, even though the stub is then counted as an error and `stubs_created` stays 0. -/
theorem c3_counterexample :
    (process_stub c3NoStory c3Email c3State {}).1.mail.items.map MailItem.folder
      = [stubsFolder] ∧
    (process_stub c3NoStory c3Email c3State {}).2.errors = 1 ∧
    (process_stub c3NoStory c3Email c3State {}).2.stubs_created = 0 ∧
    (process_stub c3NoStory c3Email c3State {}).1.registry.map
      (fun x => (x.outlook_entry_id, x.status)) = [("B", "pending")] := by
  decide

/-- Claim C3 (amended): for every processed stub, `_process_stub` registers the stub,
performs the connector move (the mailbox ends in the `move_to_stubs` result state),
and then the pair-unpacking of the returned boolean raises, so the run is counted as
an error and the `stubs_created` branch is unreachable: the statistics change by
exactly `errors + 1`. -/
theorem c3_process_stub_amended (ext : RawEmail → Option String) (e : RawEmail)
    (s : SysState) (stats : IngestionStats) :
    process_stub ext e s stats =
      ({ mail := (move_email s.mail e.outlook_entry_id stubsFolder).2,
         registry := (add_stub (pipelineStubEntry ext e) s.registry).2 },
       { stats with errors := stats.errors + 1 }) := rfl

/-! ### Detector theorems (claims C5, C6) -/

/-- Claim C5 (counterexample): a message whose body contains the literal sentinel
`(Bloomberg) --` can still be classified STUB, because the disclaimer-removal
preprocessing (`_remove_email_disclaimer`) can swallow the sentinel before check 1
runs: here pattern `External Email.*?(?=\n\n|\n[A-Z])` deletes the span holding it. -/
theorem c5_counterexample :
    containsLit "(Bloomberg) --".data c5Body.data = true ∧
    detect_from_email idClean c5Body = true ∧
    classify idClean c5Body = "stub" := by
  decide

/-- Claim C5 (amended): for every cleaner and every message whose body AFTER
disclaimer removal still matches the article-begins sentinel pattern, `classify`
returns COMPLETE, regardless of any trailing Alert/Source block (check 1 precedes
every other rule). -/
theorem c5_sentinel_complete_amended (clean : String → String) (rawBody : String)
    (h : hasBloombergPattern (removeDisclaimer rawBody.data) = true) :
    detect_from_email clean rawBody = false := by
  unfold detect_from_email
  simp [h]

/-- Witness for C5 (amended): the Scenario-B body — sentinel, three paragraphs of
prose, trailing Alert/Source block — is classified COMPLETE. -/
theorem c5_sentinel_complete_amended_witness :
    hasBloombergPattern (removeDisclaimer c5ProseBody.data) = true ∧
    detect_from_email idClean c5ProseBody = false :=
  ⟨by decide, c5_sentinel_complete_amended idClean c5ProseBody (by decide)⟩

/-- Claim C6: Scenario A — the operator-marker body with no prose is classified STUB:
the `Source:` marker starts at position 9, within the 500-char early threshold, and
the span between it and the first metadata block is empty, below the 200-char content
threshold. -/
theorem c6_scenarioA_stub :
    detect_from_email idClean c6Body = true ∧
    classify idClean c6Body = "stub" ∧
    findSourcePosition (removeDisclaimer c6Body.data) = some 9 ∧
    9 < earlyAlertThreshold ∧
    (pyStripL (extractContentAfterSource (removeDisclaimer c6Body.data) 9)).length = 0 ∧
    0 < minContentAfterSource := by
  decide

/-! ### Scenario C evaluation (claim C1) -/

/-- Claim C1 (code evaluation at the failing input): the stub is registered under the
normalized fingerprint, and the intended fingerprint of the complete message
(`create_fingerprint`, which strips the prefix) WOULD match it — but
`find_matching_stub` computes the fingerprint with `EmailDocument.get_fingerprint`,
which does not normalize, so no match is found: the complete-email path leaves the
registry with one PENDING and zero COMPLETED records, contradicting the claimed one
COMPLETED / zero PENDING. -/
theorem c1_scenarioC_code_eval :
    c1Stub.fingerprint = "fed raises rates_20240115" ∧
    create_fingerprint c1Doc.subject c1Doc.received_date = "fed raises rates_20240115" ∧
    c1Doc.get_fingerprint = "(xx) fed raises rates_20240115" ∧
    find_matching_stub c1Doc c1Registry = none ∧
    process_complete_email c1Doc c1Now ⟨c1Mail, c1Registry⟩
      = ((false, none), ⟨c1Mail, c1Registry⟩) ∧
    (get_all_pending c1Registry).length = 1 ∧
    (get_all_completed c1Registry).length = 0 := by
  decide
